import Mathlib

/-!
Shallow embedding of the sync API core of the LM Studio client SDK
(`src/lmstudio/sync_api.py`): the multiplexed wire protocol, remote calls,
streaming channels, the prediction stream handle, the multi-round tool-use
loop of the LLM handle, and the process-wide default client. Helpers that
live in `json_api.py` (which is not among the sources) are modelled from the
specification and carry a doc comment saying so.
-/

/-- Wire payload carried inside protocol frames (a JSON body, kept abstract). -/
abbrev Payload := String

/-- Envelope frames of the multiplexed wire protocol (spec sections 3 and 6). -/
inductive Frame where
  | rpcCall (callId : Nat) (endpointName : String) (parameter : Payload)
  | rpcResult (callId : Nat) (result : Payload)
  | rpcError (callId : Nat) (errorTitle : String)
  | channelCreate (channelId : Nat) (endpointName : String) (creationParameter : Payload)
  | channelSend (channelId : Nat) (message : Payload)
  | channelCancel (channelId : Nat)
  | channelClose (channelId : Nat)
deriving DecidableEq, Repr

/-- Local state of a SyncChannel handle: the channel id and the finished flag
that rx_stream sets when a terminal message arrives (sync_api.py lines 155-205). -/
structure ChannelState where
  channelId : Nat
  isFinished : Bool
deriving DecidableEq, Repr

/-- Modelled from the spec: ChannelHandler.get_cancel_message lives in
json_api.py, which is not among the sources. Per the spec envelope table, the
cancel message is a channelCancel frame carrying the channel id. -/
def ChannelHandler.get_cancel_message (channelId : Nat) : Frame :=
  Frame.channelCancel channelId

/-- SyncChannel.cancel (sync_api.py lines 176-181): return without sending when
the channel is finished, otherwise send one channelCancel frame. The local
state is left unchanged in both cases. Returns the state and the frames put on
the wire by this call. -/
def SyncChannel.cancel (s : ChannelState) : ChannelState × List Frame :=
  if s.isFinished then (s, [])
  else (s, [ChannelHandler.get_cancel_message s.channelId])

/-- Iterate SyncChannel.cancel the given number of times, concatenating the
frames sent on the wire by each call. -/
def SyncChannel.cancelIter : Nat → ChannelState → ChannelState × List Frame
  | 0, s => (s, [])
  | n + 1, s =>
    let r1 := SyncChannel.cancel s
    let r2 := SyncChannel.cancelIter n r1.1
    (r2.1, r1.2 ++ r2.2)

/-- Error for a malformed inbound channel frame (spec error taxonomy:
ChannelError). -/
inductive ChannelRxError where
  | unexpectedMessage (f : Frame)
deriving DecidableEq, Repr

/-- Modelled from the spec: ChannelHandler.handle_rx_message lives in
json_api.py, which is not among the sources. Per spec section 4.5, the stream
yields the message field of each channelSend frame and is terminated by a
channelClose from the server or by the shutdown sentinel (None); termination
is reported as ok none (for the sentinel, the Disconnected failure surfaces
when the endpoint result is requested); any other channel frame is a protocol
violation. -/
def ChannelHandler.handle_rx_message : Option Frame → Except ChannelRxError (Option Payload)
  | none => Except.ok none
  | some (Frame.channelSend _ m) => Except.ok (some m)
  | some (Frame.channelClose _) => Except.ok none
  | some f => Except.error (ChannelRxError.unexpectedMessage f)

/-- Result of driving SyncChannel.rx_stream over a queue of inbound messages:
the payloads yielded, the final handle state, whether the stream terminated
via the shutdown sentinel, and any protocol violation encountered. -/
structure RxStreamRun where
  yielded : List Payload
  state : ChannelState
  disconnected : Bool
  errored : Option ChannelRxError
deriving DecidableEq, Repr

/-- SyncChannel.rx_stream (sync_api.py lines 183-196): while the channel is not
finished, take the next inbound message, hand it to the channel handler, mark
the channel finished when the handler reports a terminal message, otherwise
yield the payload and continue. The inbox list holds the messages the
multiplexer will deliver; an exhausted list means the consumer would block
awaiting further messages. -/
def SyncChannel.rx_stream : ChannelState → List (Option Frame) → RxStreamRun
  | s, [] => { yielded := [], state := s, disconnected := false, errored := none }
  | s, msg :: rest =>
    if s.isFinished then { yielded := [], state := s, disconnected := false, errored := none }
    else
      match ChannelHandler.handle_rx_message msg with
      | Except.error e => { yielded := [], state := s, disconnected := false, errored := some e }
      | Except.ok none =>
        { yielded := [], state := { s with isFinished := true },
          disconnected := msg.isNone, errored := none }
      | Except.ok (some p) =>
        let t := SyncChannel.rx_stream s rest
        { t with yielded := p :: t.yielded }

/-- Modelled from the spec: ChannelHandler.get_creation_message lives in
json_api.py, which is not among the sources. Per the spec envelope table it is
a channelCreate frame carrying the channel id, the endpoint name, and the
endpoint creation payload. -/
def ChannelHandler.get_creation_message (channelId : Nat) (endpointName : String)
    (creationParameter : Payload) : Frame :=
  Frame.channelCreate channelId endpointName creationParameter

/-- Trace of one SyncLMStudioWebsocket.open_channel scope (sync_api.py lines
524-540): the allocated channel id, the frames sent on scope entry, and the
frames sent on scope exit. -/
structure OpenChannelScope where
  channelId : Nat
  entryFrames : List Frame
  exitFrames : List Frame
deriving DecidableEq, Repr

/-- SyncLMStudioWebsocket.open_channel (sync_api.py lines 524-540): on entry a
channel id is taken from the multiplexer allocator and the creation message is
sent; on exit the generator only leaves the multiplexer registration scope.
The exit path consults nothing about the channel, so the bodyFinished argument
(whether the channel had finished when the scope exited) is unused and no
frame is sent on exit. -/
def SyncLMStudioWebsocket.open_channel (nextChannelId : Nat) (endpointName : String)
    (creationParameter : Payload) (_bodyFinished : Bool) : OpenChannelScope :=
  { channelId := nextChannelId
  , entryFrames :=
      [ChannelHandler.get_creation_message nextChannelId endpointName creationParameter]
  , exitFrames := [] }

/-- Outcome of one remote procedure call at its caller. -/
inductive RpcReply where
  | result (payload : Payload)
  | rpcFailure (errorTitle : String)
  | disconnected
  | protocolViolation (f : Frame)
deriving DecidableEq, Repr

/-- Modelled from the spec: RemoteCallHandler.handle_rx_message lives in
json_api.py, which is not among the sources. Per spec section 4.4, an
rpcResult frame returns the payload, an rpcError frame fails with an RpcError
carrying the server-supplied error, and the shutdown sentinel (None) fails
with Disconnected. -/
def RemoteCallHandler.handle_rx_message : Option Frame → RpcReply
  | none => RpcReply.disconnected
  | some (Frame.rpcResult _ p) => RpcReply.result p
  | some (Frame.rpcError _ t) => RpcReply.rpcFailure t
  | some f => RpcReply.protocolViolation f

/-- SyncRemoteCall.receive_result (sync_api.py lines 230-233): take exactly one
message from the receive queue and hand it to the call handler. The value none
means the queue never delivers and the caller stays blocked. -/
def SyncRemoteCall.receive_result : List (Option Frame) → Option (RpcReply × List (Option Frame))
  | [] => none
  | msg :: rest => some (RemoteCallHandler.handle_rx_message msg, rest)

/-- Trace of SyncLMStudioWebsocket.remote_call (sync_api.py lines 554-567): the
allocated call id, the frames sent, the reply received (when the inbox
delivers one), and the part of the inbox left unconsumed. -/
structure RemoteCallRun where
  callId : Nat
  sent : List Frame
  reply : Option RpcReply
  remainingInbox : List (Option Frame)
deriving DecidableEq, Repr

/-- SyncLMStudioWebsocket.remote_call (sync_api.py lines 554-567): allocate a
call id with a fresh receive queue, send the rpcCall frame, then block on
receive_result, which consumes exactly one inbound message. -/
def SyncLMStudioWebsocket.remote_call (nextCallId : Nat) (endpointName : String)
    (params : Payload) (inbox : List (Option Frame)) : RemoteCallRun :=
  match SyncRemoteCall.receive_result inbox with
  | none =>
    { callId := nextCallId
    , sent := [Frame.rpcCall nextCallId endpointName params]
    , reply := none
    , remainingInbox := inbox }
  | some r =>
    { callId := nextCallId
    , sent := [Frame.rpcCall nextCallId endpointName params]
    , reply := some r.1
    , remainingInbox := r.2 }

/-- Observable actions of the background websocket thread and of the client
side teardown (sync_api.py lines 404-414 and 485-508). -/
inductive PumpAction where
  | logFailure
  | setTerminateFlag
  | breakRxLoop
  | cancelRxTask
  | clearTaskState
  | closeWebsocket
  | putSentinel (queueId : Nat)
  | joinThread
deriving DecidableEq, Repr

/-- Failure branch of the receive_messages loop of the background websocket
thread (sync_api.py lines 404-414): when a receive error hits while the
websocket is still active (the failure was not caused by client shutdown), the
thread logs the failure, sets the terminate flag, and leaves the loop. It
delivers nothing to any receive queue. -/
def AsyncWebsocketThread.receive_messages_failure (wsActive : Bool) : List PumpAction :=
  if wsActive then
    [PumpAction.logFailure, PumpAction.setTerminateFlag, PumpAction.breakRxLoop]
  else [PumpAction.breakRxLoop]

/-- Actions the main task of the background thread performs once the terminate
flag is set (sync_api.py lines 289-318 and 357-369): the demultiplexing task
is cancelled, the task state is cleared, and the websocket is released. No
receive queue is touched. -/
def AsyncWebsocketThread.main_task_shutdown : List PumpAction :=
  [PumpAction.cancelRxTask, PumpAction.clearTaskState, PumpAction.closeWebsocket]

/-- Complete action trace of the background thread when the transport fails
mid-session: the receive failure branch followed by the main task teardown. -/
def AsyncWebsocketThread.transport_failure_actions : List PumpAction :=
  AsyncWebsocketThread.receive_messages_failure true ++ AsyncWebsocketThread.main_task_shutdown

/-- SyncLMStudioWebsocket notify_client_termination (sync_api.py lines
505-508): put the shutdown sentinel on every receive queue currently
registered with the multiplexer. -/
def SyncLMStudioWebsocket.notify_client_termination (registeredQueues : List Nat) :
    List PumpAction :=
  registeredQueues.map PumpAction.putSentinel

/-- SyncLMStudioWebsocket.disconnect (sync_api.py lines 485-494): deliver the
shutdown sentinel to every registered queue, then terminate and join the
background thread. -/
def SyncLMStudioWebsocket.disconnect (registeredQueues : List Nat) : List PumpAction :=
  SyncLMStudioWebsocket.notify_client_termination registeredQueues ++
    [PumpAction.setTerminateFlag, PumpAction.joinThread]

/-- A tool call dispatched to the worker pool in LLM.act: the originating
request id, the time at which a worker finishes it, and the produced result. -/
structure PendingToolCall where
  requestId : Nat
  completesAt : Nat
  result : String
deriving DecidableEq, Repr

/-- Insert a completed future into a list ordered by completion time. -/
def insertByCompletion (f : PendingToolCall) : List PendingToolCall → List PendingToolCall
  | [] => [f]
  | g :: gs =>
    if f.completesAt < g.completesAt then f :: g :: gs
    else g :: insertByCompletion f gs

/-- concurrent.futures.as_completed: yields the pending futures in the order
in which they complete, not in submission order. -/
def as_completed (pending : List PendingToolCall) : List PendingToolCall :=
  pending.foldr insertByCompletion []

/-- Tool result collection in LLM.act (sync_api.py lines 1672-1675): the
results are read from the futures in completion order. -/
def collectToolResults (pending : List PendingToolCall) : List String :=
  (as_completed pending).map PendingToolCall.result

/-- A tool call request received from the model during a prediction round. -/
structure ToolCallReq where
  id : Nat
  name : String
  args : String
deriving DecidableEq, Repr

/-- Record of one prediction round of LLM.act: its index, whether the
ChatResponse endpoint of the round was constructed with the tool definitions
(sync_api.py lines 1635-1650 pass the parsed tool arguments unless the round
index equals the final round index), and the tool call requests received from
the model during the round. -/
structure ActRound where
  index : Nat
  toolsSent : Bool
  toolRequests : List ToolCallReq
deriving DecidableEq, Repr

/-- Trace of the round loop of LLM.act: the rounds performed, whether an
invalid-tool-request was surfaced through the endpoint handler (sync_api.py
lines 1698-1703), and the value the round index variable holds after the
loop. -/
structure ActTrace where
  rounds : List ActRound
  invalid : Bool
  lastIndex : Nat
deriving DecidableEq, Repr

/-- Round loop of LLM.act with a bounded round counter (sync_api.py lines
1621-1703). The model behaviour is abstracted as the list of tool call
requests the prediction of each round produces. The remaining argument counts
the round indices the range still holds. Each round, the endpoint is
constructed with the tool definitions unless the round index equals the final
round index; an empty request list leaves the loop; a non-empty one on the
final round surfaces an invalid tool request and leaves the loop; otherwise
the loop continues with the next round index. -/
def LLM.actRounds (finalRoundIndex : Nat) (model : Nat → List ToolCallReq) :
    Nat → Nat → ActTrace
  | 0, i => { rounds := [], invalid := false, lastIndex := i - 1 }
  | remaining + 1, i =>
    let reqs := model i
    let r : ActRound := { index := i, toolsSent := i != finalRoundIndex, toolRequests := reqs }
    if reqs.isEmpty then { rounds := [r], invalid := false, lastIndex := i }
    else if i = finalRoundIndex then { rounds := [r], invalid := true, lastIndex := i }
    else
      let t := LLM.actRounds finalRoundIndex model remaining (i + 1)
      { rounds := r :: t.rounds, invalid := t.invalid, lastIndex := t.lastIndex }

/-- Outcome of LLM.act: the round trace and the rounds field of the returned
ActResult (sync_api.py lines 1704-1706: the round index after the loop plus
one). -/
structure ActOutcome where
  trace : ActTrace
  resultRounds : Nat
deriving DecidableEq, Repr

/-- LLM.act with max_prediction_rounds given (sync_api.py lines 1576-1588 and
1621-1706): a limit below one is rejected with a value error; otherwise the
final round index is the limit minus one and the loop runs over the range of
the limit. -/
def LLM.act (maxPredictionRounds : Nat) (model : Nat → List ToolCallReq) :
    Except String ActOutcome :=
  if maxPredictionRounds < 1 then
    Except.error "Max prediction rounds must be at least 1"
  else
    let trace := LLM.actRounds (maxPredictionRounds - 1) model maxPredictionRounds 0
    Except.ok { trace := trace, resultRounds := trace.lastIndex + 1 }

/-- Steps observable during client construction and session connection
(sync_api.py lines 1741-1750 and 578-607). The wsConnect and authHandshake
actions are the network operations; the authentication handshake happens once
per websocket connection. -/
inductive ClientAction where
  | storeApiHost
  | initResourceStack
  | initSessionMap
  | registerSessionsClearCallback
  | registerFinalizer
  | wsConnect
  | authHandshake
deriving DecidableEq, Repr

/-- Client construction (sync_api.py lines 1741-1750, with the ClientBase
initialisation modelled from the spec: it stores the host and the generated
auth details). No network operation is performed. -/
def Client.initActions : List ClientAction :=
  [ClientAction.storeApiHost, ClientAction.initResourceStack, ClientAction.initSessionMap,
   ClientAction.registerSessionsClearCallback, ClientAction.registerFinalizer]

/-- Connection state of one SyncSession: whether its websocket exists. -/
structure SessionState where
  connected : Bool
deriving DecidableEq, Repr

/-- SyncSession.connect (sync_api.py lines 592-607): fail if the session is
already connected (fail_if_connected is modelled from the spec, faithful to
the error message raised in sync_api.py line 595), otherwise open the
websocket and perform the authentication handshake. -/
def SyncSession.connect (s : SessionState) :
    Except String (SessionState × List ClientAction) :=
  if s.connected then Except.error "Attempted to connect already connected session"
  else Except.ok ({ connected := true }, [ClientAction.wsConnect, ClientAction.authHandshake])

/-- SyncSession ensure_connected (sync_api.py lines 578-581): connect the
session websocket lazily, only when it does not exist yet. -/
def SyncSession.ensure_connected (s : SessionState) : SessionState × List ClientAction :=
  if s.connected then (s, [])
  else ({ connected := true }, [ClientAction.wsConnect, ClientAction.authHandshake])

/-- Run a sequence of operations that each begin with ensure_connected (every
remote call and channel creation does, sync_api.py lines 621-642), collecting
the network actions performed. -/
def SyncSession.ensureConnectedIter : Nat → SessionState → SessionState × List ClientAction
  | 0, s => (s, [])
  | n + 1, s =>
    let r1 := SyncSession.ensure_connected s
    let r2 := SyncSession.ensureConnectedIter n r1.1
    (r2.1, r1.2 ++ r2.2)

/-- State of a PredictionStream handle: the started and finished flags of the
prediction stream base (modelled from the spec: mark_started sets the started
flag, receiving the result sets the finished flag) plus a count of prediction
requests put on the wire. -/
structure PredictionStreamState where
  isStarted : Bool
  isFinished : Bool
  requestsSent : Nat
deriving DecidableEq, Repr

/-- PredictionStream.start (sync_api.py lines 1034-1043): a stream whose result
was already received and a stream already started are rejected with a runtime
error before anything is sent; otherwise entering the channel context sends
the prediction request and the stream is marked started. -/
def PredictionStream.start (s : PredictionStreamState) :
    Except String PredictionStreamState :=
  if s.isFinished then Except.error "Prediction result has already been received."
  else if s.isStarted then Except.error "Prediction request has already been sent."
  else Except.ok { s with isStarted := true, requestsSent := s.requestsSent + 1 }

/-- The process-wide default client record: the api host it was created with
and whether any session connection has been established. -/
structure DefaultClient where
  apiHost : Option String
  connected : Bool
deriving DecidableEq, Repr

/-- get_default_client (sync_api.py lines 1856-1870): create the client on
first use with the supplied host; afterwards any supplied host is rejected
(the existing host and the connection state are never consulted), and an
absent host returns the existing client unchanged. Returns the client handed
to the caller together with the new global state. -/
def get_default_client (current : Option DefaultClient) (apiHost : Option String) :
    Except String (DefaultClient × Option DefaultClient) :=
  match current with
  | none =>
    let c : DefaultClient := { apiHost := apiHost, connected := false }
    Except.ok (c, some c)
  | some c =>
    match apiHost with
    | none => Except.ok (c, some c)
    | some _ => Except.error "Default session already connected, cannot set API host."

/-- Helper: inserting by completion time yields a permutation of consing. -/
theorem insertByCompletion_perm (f : PendingToolCall) (l : List PendingToolCall) :
    (insertByCompletion f l).Perm (f :: l) := by
  induction l with
  | nil => simp [insertByCompletion]
  | cons g gs ih =>
    by_cases h : f.completesAt < g.completesAt
    · simp [insertByCompletion, h]
    · simp only [insertByCompletion, if_neg h]
      exact (ih.cons g).trans (List.Perm.swap f g gs)

/-- Helper: membership after insertion by completion time. -/
theorem insertByCompletion_mem (f : PendingToolCall) (l : List PendingToolCall)
    (x : PendingToolCall) : x ∈ insertByCompletion f l ↔ x = f ∨ x ∈ l := by
  rw [(insertByCompletion_perm f l).mem_iff]
  simp

/-- Helper: insertion by completion time preserves sortedness by completion
time. -/
theorem insertByCompletion_pairwise (f : PendingToolCall) (l : List PendingToolCall)
    (h : List.Pairwise (fun a b => a.completesAt ≤ b.completesAt) l) :
    List.Pairwise (fun a b => a.completesAt ≤ b.completesAt) (insertByCompletion f l) := by
  induction l with
  | nil => simp [insertByCompletion]
  | cons g gs ih =>
    rcases List.pairwise_cons.mp h with ⟨hg, hgs⟩
    by_cases hlt : f.completesAt < g.completesAt
    · simp only [insertByCompletion, if_pos hlt]
      refine List.pairwise_cons.mpr ⟨?_, h⟩
      intro x hx
      rcases List.mem_cons.mp hx with rfl | hx
      · exact Nat.le_of_lt hlt
      · exact Nat.le_trans (Nat.le_of_lt hlt) (hg x hx)
    · simp only [insertByCompletion, if_neg hlt]
      refine List.pairwise_cons.mpr ⟨?_, ih hgs⟩
      intro x hx
      rcases (insertByCompletion_mem f gs x).mp hx with rfl | hx
      · exact Nat.le_of_not_lt hlt
      · exact hg x hx

/-- Helper: the completion-ordered future list is a permutation of the pending
futures. -/
theorem as_completed_perm (pending : List PendingToolCall) :
    (as_completed pending).Perm pending := by
  induction pending with
  | nil => simp [as_completed]
  | cons f fs ih =>
    exact (insertByCompletion_perm f (as_completed fs)).trans (ih.cons f)

/-- Helper: the completion-ordered future list is sorted by completion time. -/
theorem as_completed_sorted (pending : List PendingToolCall) :
    List.Pairwise (fun a b => a.completesAt ≤ b.completesAt) (as_completed pending) := by
  induction pending with
  | nil => simp [as_completed]
  | cons f fs ih => exact insertByCompletion_pairwise f _ ih

/-- Helper: the act round loop performs at most as many rounds as the counter
holds. -/
theorem LLM.actRounds_length_le (finalRoundIndex : Nat) (model : Nat → List ToolCallReq) :
    ∀ remaining i, (LLM.actRounds finalRoundIndex model remaining i).rounds.length ≤ remaining := by
  intro remaining
  induction remaining with
  | zero => intro i; simp [LLM.actRounds]
  | succ n ih =>
    intro i
    simp only [LLM.actRounds]
    by_cases h1 : (model i).isEmpty
    · simp [h1]
    · simp only [h1, Bool.false_eq_true, if_false]
      by_cases h2 : i = finalRoundIndex
      · simp [h2]
      · simp only [h2, if_false, List.length_cons]
        exact Nat.succ_le_succ (ih (i + 1))

/-- Helper: each recorded round passed the tool definitions to the endpoint
exactly when its index differs from the final round index. -/
theorem LLM.actRounds_toolsSent (finalRoundIndex : Nat) (model : Nat → List ToolCallReq) :
    ∀ remaining i r, r ∈ (LLM.actRounds finalRoundIndex model remaining i).rounds →
      r.toolsSent = (r.index != finalRoundIndex) := by
  intro remaining
  induction remaining with
  | zero => intro i r hr; simp [LLM.actRounds] at hr
  | succ n ih =>
    intro i r hr
    simp only [LLM.actRounds] at hr
    by_cases h1 : (model i).isEmpty
    · simp [h1] at hr
      subst hr; rfl
    · simp only [h1, Bool.false_eq_true, if_false] at hr
      by_cases h2 : i = finalRoundIndex
      · simp [h2] at hr
        subst hr; simp [h2]
      · simp only [h2, if_false, List.mem_cons] at hr
        rcases hr with rfl | hr
        · rfl
        · exact ih (i + 1) r hr

/-- Helper: a recorded round at the final round index with a non-empty tool
request list makes the loop surface an invalid tool request. -/
theorem LLM.actRounds_invalid (finalRoundIndex : Nat) (model : Nat → List ToolCallReq) :
    ∀ remaining i r, r ∈ (LLM.actRounds finalRoundIndex model remaining i).rounds →
      r.index = finalRoundIndex → r.toolRequests ≠ [] →
      (LLM.actRounds finalRoundIndex model remaining i).invalid = true := by
  intro remaining
  induction remaining with
  | zero => intro i r hr; simp [LLM.actRounds] at hr
  | succ n ih =>
    intro i r hr hidx hreq
    simp only [LLM.actRounds] at hr ⊢
    by_cases h1 : (model i).isEmpty
    · exfalso
      simp [h1] at hr
      subst hr
      simp only [List.isEmpty_iff] at h1
      exact hreq h1
    · simp only [h1, Bool.false_eq_true, if_false] at hr ⊢
      by_cases h2 : i = finalRoundIndex
      · simp [h2]
      · simp only [h2, if_false, List.mem_cons] at hr ⊢
        rcases hr with rfl | hr
        · exact absurd hidx h2
        · exact ih (i + 1) r hr hidx hreq

/-- Helper: the round index variable after the loop plus one equals the start
index plus the number of rounds performed, provided the counter is positive or
the start index is. -/
theorem LLM.actRounds_lastIndex (finalRoundIndex : Nat) (model : Nat → List ToolCallReq) :
    ∀ remaining i, 1 ≤ remaining ∨ 1 ≤ i →
      (LLM.actRounds finalRoundIndex model remaining i).lastIndex + 1 =
        i + (LLM.actRounds finalRoundIndex model remaining i).rounds.length := by
  intro remaining
  induction remaining with
  | zero =>
    intro i h
    rcases h with h | h
    · omega
    · simp [LLM.actRounds]; omega
  | succ n ih =>
    intro i _
    simp only [LLM.actRounds]
    by_cases h1 : (model i).isEmpty
    · simp [h1]
    · simp only [h1, Bool.false_eq_true, if_false]
      by_cases h2 : i = finalRoundIndex
      · simp [h2]
      · simp only [h2, if_false, List.length_cons]
        have := ih (i + 1) (Or.inr (by omega))
        omega

/-- Helper: once a session is connected, further ensure_connected calls perform
no network action. -/
theorem SyncSession.ensureConnectedIter_connected :
    ∀ n, SyncSession.ensureConnectedIter n { connected := true } =
      ({ connected := true }, []) := by
  intro n
  induction n with
  | zero => rfl
  | succ m ih => simp [SyncSession.ensureConnectedIter, SyncSession.ensure_connected, ih]

/-- Helper: counting sentinel deliveries over the fan-out to all registered
queues counts the registrations of the queue. -/
theorem notify_client_termination_count (registeredQueues : List Nat) (q : Nat) :
    (SyncLMStudioWebsocket.notify_client_termination registeredQueues).count
        (PumpAction.putSentinel q) = registeredQueues.count q := by
  induction registeredQueues with
  | nil => rfl
  | cons a qs ih =>
    simp only [SyncLMStudioWebsocket.notify_client_termination, List.map_cons,
      List.count_cons] at *
    simp [ih]

/-- C1: for every invocation of LLM.act with max_prediction_rounds = K (K at
least 1), the loop performs at most K prediction rounds; on the final round
(index K - 1) the ChatResponse endpoint is constructed with no tool
definitions; if the model still requests at least one tool call on that final
round, an invalid tool request is surfaced via the endpoint handler; and the
rounds field of the returned ActResult equals the number of rounds actually
performed. -/
theorem act_bounded_rounds (K : Nat) (model : Nat → List ToolCallReq) (hK : 1 ≤ K) :
    ∃ out, LLM.act K model = Except.ok out ∧
      out.trace.rounds.length ≤ K ∧
      (∀ r ∈ out.trace.rounds, r.index = K - 1 → r.toolsSent = false) ∧
      (∀ r ∈ out.trace.rounds, r.index = K - 1 → r.toolRequests ≠ [] →
        out.trace.invalid = true) ∧
      out.resultRounds = out.trace.rounds.length := by
  have hKlt : ¬ K < 1 := by omega
  refine ⟨{ trace := LLM.actRounds (K - 1) model K 0,
            resultRounds := (LLM.actRounds (K - 1) model K 0).lastIndex + 1 },
    ?_, ?_, ?_, ?_, ?_⟩
  · simp only [LLM.act, if_neg hKlt]
  · exact LLM.actRounds_length_le (K - 1) model K 0
  · intro r hr hidx
    have := LLM.actRounds_toolsSent (K - 1) model K 0 r hr
    simp [this, hidx]
  · intro r hr hidx hreq
    exact LLM.actRounds_invalid (K - 1) model K 0 r hr hidx hreq
  · have := LLM.actRounds_lastIndex (K - 1) model K 0 (Or.inl hK)
    simp only at this ⊢
    omega

/-- Witness for act_bounded_rounds: two rounds with a model that always
requests a tool call. -/
theorem act_bounded_rounds_witness :
    ∃ out, LLM.act 2 (fun _ => [{ id := 0, name := "add", args := "2 3" }]) = Except.ok out ∧
      out.trace.rounds.length ≤ 2 ∧
      (∀ r ∈ out.trace.rounds, r.index = 2 - 1 → r.toolsSent = false) ∧
      (∀ r ∈ out.trace.rounds, r.index = 2 - 1 → r.toolRequests ≠ [] →
        out.trace.invalid = true) ∧
      out.resultRounds = out.trace.rounds.length :=
  act_bounded_rounds 2 (fun _ => [{ id := 0, name := "add", args := "2 3" }]) (by decide)

/-- C2: remote_call consumes exactly one inbound message for the allocated
call id, and by the call handler equations the call concludes in exactly one
of three ways: an rpcResult frame returns the result payload, an rpcError
frame fails with an RpcError carrying the server-supplied error, and the
shutdown sentinel fails with Disconnected; the single consumed message means
no call receives more than one result. -/
theorem remote_call_single_result (cid : Nat) (ep : String) (params : Payload)
    (msg : Option Frame) (rest : List (Option Frame)) (c : Nat) (p : Payload) (t : String) :
    (SyncLMStudioWebsocket.remote_call cid ep params (msg :: rest)).remainingInbox = rest ∧
    (SyncLMStudioWebsocket.remote_call cid ep params (msg :: rest)).reply =
      some (RemoteCallHandler.handle_rx_message msg) ∧
    (SyncLMStudioWebsocket.remote_call cid ep params (msg :: rest)).sent =
      [Frame.rpcCall cid ep params] ∧
    RemoteCallHandler.handle_rx_message (some (Frame.rpcResult c p)) = RpcReply.result p ∧
    RemoteCallHandler.handle_rx_message (some (Frame.rpcError c t)) = RpcReply.rpcFailure t ∧
    RemoteCallHandler.handle_rx_message none = RpcReply.disconnected :=
  ⟨rfl, rfl, rfl, rfl, rfl, rfl⟩

/-- C3 counterexample: two cancel calls on an unfinished channel put two
channelCancel frames on the wire, so calling cancel N times does not send at
most one channelCancel frame. -/
theorem cancel_counterexample :
    (SyncChannel.cancelIter 2 { channelId := 0, isFinished := false }).2 =
      [Frame.channelCancel 0, Frame.channelCancel 0] ∧
    ¬ (SyncChannel.cancelIter 2 { channelId := 0, isFinished := false }).2.length ≤ 1 := by
  decide

/-- C3 amended: cancel on a finished channel sends nothing, and each cancel
call on an unfinished channel sends exactly one channelCancel frame, so N
calls send N frames while the channel is unfinished (an unfinished channel is
never marked finished by cancel itself); cancel never changes the local
state. -/
theorem cancel_frames_per_call (n : Nat) (s : ChannelState) :
    (SyncChannel.cancelIter n s).1 = s ∧
    (SyncChannel.cancelIter n s).2 =
      (if s.isFinished then [] else List.replicate n (Frame.channelCancel s.channelId)) := by
  induction n with
  | zero =>
    cases h : s.isFinished <;> simp [SyncChannel.cancelIter, h]
  | succ m ih =>
    cases h : s.isFinished <;>
      simp_all [SyncChannel.cancelIter, SyncChannel.cancel,
        ChannelHandler.get_cancel_message, h, List.replicate_succ]

/-- C4 counterexample: when the transport fails mid-session with receive queue
0 registered, the complete failure handling of the background thread delivers
zero shutdown sentinels to that queue, not exactly one. -/
theorem shutdown_fanout_counterexample :
    (AsyncWebsocketThread.transport_failure_actions.count (PumpAction.putSentinel 0)) = 0 ∧
    ¬ (AsyncWebsocketThread.transport_failure_actions.count (PumpAction.putSentinel 0)) = 1 := by
  decide

/-- C4 amended: the shutdown sentinel fan-out is performed by the client-side
disconnect, whose trace delivers exactly one sentinel to every queue
registered at that moment (one per registration); the receive failure handling
of the background thread itself only sets the terminate flag and tears the
websocket down, delivering no sentinel. -/
theorem sentinel_fanout_on_disconnect (registeredQueues : List Nat) (q : Nat) :
    (SyncLMStudioWebsocket.disconnect registeredQueues).count (PumpAction.putSentinel q) =
      registeredQueues.count q ∧
    (AsyncWebsocketThread.transport_failure_actions.count (PumpAction.putSentinel q)) = 0 := by
  constructor
  · simp [SyncLMStudioWebsocket.disconnect, List.count_append,
      notify_client_termination_count registeredQueues q, List.count_cons]
  · simp [AsyncWebsocketThread.transport_failure_actions,
      AsyncWebsocketThread.receive_messages_failure,
      AsyncWebsocketThread.main_task_shutdown, List.count_cons]

/-- C5 counterexample: a round with two tool call requests whose workers
finish out of order collects the results in completion order, not in the
order of the requests, so the collected order is not consistent with the
request ids. -/
theorem tool_results_order_counterexample :
    collectToolResults
        [{ requestId := 0, completesAt := 5, result := "a" },
         { requestId := 1, completesAt := 3, result := "b" }] = ["b", "a"] ∧
    collectToolResults
        [{ requestId := 0, completesAt := 5, result := "a" },
         { requestId := 1, completesAt := 3, result := "b" }] ≠
      List.map PendingToolCall.result
        [{ requestId := 0, completesAt := 5, result := "a" },
         { requestId := 1, completesAt := 3, result := "b" }] := by
  decide

/-- C5 amended: in every act round that produced tool call requests, the tool
results are collected in completion order: the collected list is the image of
a permutation of the pending calls that is sorted by completion time, which
may differ from the order the requests were received. -/
theorem tool_results_completion_order (pending : List PendingToolCall) :
    ∃ ordered : List PendingToolCall,
      collectToolResults pending = ordered.map PendingToolCall.result ∧
      ordered.Perm pending ∧
      List.Pairwise (fun a b => a.completesAt ≤ b.completesAt) ordered :=
  ⟨as_completed pending, rfl, as_completed_perm pending, as_completed_sorted pending⟩

/-- C6: rx_stream is a finite, non-restartable sequence: on a finished channel
it yields nothing and changes nothing; a channelClose and the shutdown
sentinel both mark the channel finished and yield nothing further; a
channelSend yields its payload and continues; the finished flag only ever
grows across rx_stream, and cancel leaves the state untouched. -/
theorem rx_stream_finite_non_restartable (cid : Nat) (m : Payload)
    (inbox rest : List (Option Frame)) (b : Bool) :
    SyncChannel.rx_stream { channelId := cid, isFinished := true } inbox =
      { yielded := [], state := { channelId := cid, isFinished := true },
        disconnected := false, errored := none } ∧
    (SyncChannel.rx_stream { channelId := cid, isFinished := false }
        (some (Frame.channelClose cid) :: rest)).state.isFinished = true ∧
    (SyncChannel.rx_stream { channelId := cid, isFinished := false }
        (some (Frame.channelClose cid) :: rest)).yielded = [] ∧
    (SyncChannel.rx_stream { channelId := cid, isFinished := false }
        (none :: rest)).state.isFinished = true ∧
    (SyncChannel.rx_stream { channelId := cid, isFinished := false }
        (none :: rest)).yielded = [] ∧
    (SyncChannel.rx_stream { channelId := cid, isFinished := false }
        (some (Frame.channelSend cid m) :: rest)).yielded =
      m :: (SyncChannel.rx_stream { channelId := cid, isFinished := false } rest).yielded ∧
    b ≤ (SyncChannel.rx_stream { channelId := cid, isFinished := b } inbox).state.isFinished ∧
    (SyncChannel.cancel { channelId := cid, isFinished := b }).1 =
      { channelId := cid, isFinished := b } := by
  refine ⟨?_, ?_, ?_, ?_, ?_, ?_, ?_, ?_⟩
  · cases inbox <;> simp [SyncChannel.rx_stream]
  · rfl
  · rfl
  · rfl
  · rfl
  · rfl
  · cases b with
    | false => simp
    | true => cases inbox <;> simp [SyncChannel.rx_stream]
  · cases b <;> simp [SyncChannel.cancel]

/-- C7 counterexample: an open_channel scope whose channel has not finished
when the scope exits sends no channelCancel frame on exit. -/
theorem open_channel_exit_counterexample :
    (SyncLMStudioWebsocket.open_channel 0 "predict" "params" false).exitFrames = [] ∧
    ¬ Frame.channelCancel 0 ∈
        (SyncLMStudioWebsocket.open_channel 0 "predict" "params" false).exitFrames := by
  decide

/-- C7 amended: on entry open_channel allocates the channel id and sends
exactly one channelCreate frame carrying the endpoint creation payload; on
exit it releases the channel id registration and sends no frame, whether or
not the channel has finished (cancellation requires an explicit cancel
call). -/
theorem open_channel_scope_frames (nextChannelId : Nat) (endpointName : String)
    (creationParameter : Payload) (bodyFinished : Bool) :
    (SyncLMStudioWebsocket.open_channel nextChannelId endpointName creationParameter
        bodyFinished).channelId = nextChannelId ∧
    (SyncLMStudioWebsocket.open_channel nextChannelId endpointName creationParameter
        bodyFinished).entryFrames =
      [Frame.channelCreate nextChannelId endpointName creationParameter] ∧
    (SyncLMStudioWebsocket.open_channel nextChannelId endpointName creationParameter
        bodyFinished).exitFrames = [] :=
  ⟨rfl, rfl, rfl⟩

/-- C8: constructing a Client performs no network operation; a sequence of n
session operations that each ensure the connection performs the websocket
connection and the authentication handshake exactly once (for n at least one,
zero times for n = 0); and a second explicit connect on an already connected
session fails instead of performing a second handshake. -/
theorem lazy_connect (n : Nat) :
    ClientAction.wsConnect ∉ Client.initActions ∧
    ClientAction.authHandshake ∉ Client.initActions ∧
    (SyncSession.ensureConnectedIter n { connected := false }).2.count
        ClientAction.authHandshake = min n 1 ∧
    (SyncSession.ensureConnectedIter n { connected := false }).2.count
        ClientAction.wsConnect = min n 1 ∧
    SyncSession.connect { connected := true } =
      Except.error "Attempted to connect already connected session" := by
  refine ⟨by decide, by decide, ?_, ?_, rfl⟩ <;>
    cases n with
    | zero => rfl
    | succ m =>
      simp [SyncSession.ensureConnectedIter, SyncSession.ensure_connected,
        SyncSession.ensureConnectedIter_connected m, List.count_cons]

/-- C9: starting a PredictionStream a second time after the request has been
sent raises a runtime error, starting after the result has been received
raises a runtime error, and neither misuse sends a second request: starting a
fresh stream sends exactly one request and the repeated start is rejected
without producing a new state. -/
theorem prediction_start_misuse (n : Nat) (b : Bool) :
    PredictionStream.start { isStarted := true, isFinished := false, requestsSent := n } =
      Except.error "Prediction request has already been sent." ∧
    PredictionStream.start { isStarted := b, isFinished := true, requestsSent := n } =
      Except.error "Prediction result has already been received." ∧
    (match PredictionStream.start
        { isStarted := false, isFinished := false, requestsSent := 0 } with
     | Except.ok s1 =>
        s1.requestsSent = 1 ∧
        PredictionStream.start s1 =
          Except.error "Prediction request has already been sent."
     | Except.error _ => False) := by
  refine ⟨rfl, rfl, ?_⟩
  simp [PredictionStream.start]

/-- C10: once the process-wide default client exists, get_default_client with
any supplied api host fails with a client error, even when the supplied host
equals the host of the existing client and no connection has been established
yet; with no host supplied it returns the existing client unchanged; on first
use it creates the client with the supplied host. -/
theorem default_client_api_host (c : DefaultClient) (h : String) :
    get_default_client (some c) (some h) =
      Except.error "Default session already connected, cannot set API host." ∧
    get_default_client (some c) none = Except.ok (c, some c) ∧
    get_default_client
        (some { apiHost := some "127.0.0.1:1234", connected := false })
        (some "127.0.0.1:1234") =
      Except.error "Default session already connected, cannot set API host." ∧
    get_default_client none (some h) =
      Except.ok ({ apiHost := some h, connected := false },
        some { apiHost := some h, connected := false }) :=
  ⟨rfl, rfl, rfl, rfl⟩
